import Mathlib

/-!
Shallow embedding of `src/page.js` (the bigpipe `Page` object): the
per-request authorization filtering (`discover`) and lifecycle reset
(`configure`) protocol.

Modelling notes, tied to the source:

* A request is an opaque context object, modelled as `Nat`; a JavaScript
  argument that may be `undefined` is an `Option`.
* `pagelet.authorize` is either absent (`noCheck`), an asynchronous check
  that eventually calls its `done` continuation with a boolean derived
  from the request (`resolves f`), or a check that throws synchronously
  (`throwsErr`).  The spec's concurrency section states checks are
  asynchronous units of work, so a `resolves` check has not called `done`
  yet when the iterator body finishes.
* `async.filter`'s per-item `done` continuation is single-shot (the
  library guards it with `only_once`); the first invocation decides the
  item's filter membership.  In the `rejection` iterator
  (page.js lines 111-117) the body calls `pagelet.authorize(req, done)`
  and then, unconditionally, `done(true)`.  For an asynchronous check the
  first call on `done` is therefore the unconditional `done(true)`; the
  check's eventual value `f req` arrives at an already-consumed callback
  and cannot influence the partition.  If `authorize` throws, the
  exception propagates out of the iteration, the `acceptance`
  continuation never runs, and `discover` raises.
* JavaScript `===` on objects is reference identity; each allocated
  pagelet is a distinct object, modelled by its `uid` field.
* `Array.prototype.indexOf` returns `-1` when absent, else the first
  index; `!!n` is `false` exactly on `0` (and `NaN`), so
  `!!allowed.indexOf(pagelet)` is `true` iff the pagelet is NOT at
  index 0 of `allowed`.
-/

/-- Opaque HTTP request context, passed through to authorization checks. -/
abbrev Req := Nat

/-- The shape of `pagelet.authorize` (page.js line 116). -/
inductive AuthCheck where
  /-- No `authorize` property: `typeof pagelet.authorize` is not a function. -/
  | noCheck : AuthCheck
  /-- An asynchronous check that eventually calls `done (f req)`. -/
  | resolves : (Option Req → Bool) → AuthCheck
  /-- A check that throws synchronously when invoked. -/
  | throwsErr : AuthCheck

/-- Does the pagelet expose an authorize function
(`typeof pagelet.authorize === "function"`)? -/
def AuthCheck.isFunction : AuthCheck → Bool
  | AuthCheck.noCheck => false
  | AuthCheck.resolves _ => true
  | AuthCheck.throwsErr => true

/-- A pagelet instance as allocated by `Pagelet.alloc().configure(page)`
(page.js line 104).  `uid` models JavaScript object identity. -/
structure Pagelet where
  uid : Nat
  authorize : AuthCheck

/-- A pagelet factory registered on the page type; `alloc` is the
`Pagelet.alloc().configure(page)` allocation (the Pagelet class itself is
an external collaborator). -/
structure PageletFactory where
  alloc : Pagelet

/-- The `Page.prototype.pagelets` field: either the prototype default `{}`
(a plain object, which has no `.map`) or the array produced by
`Pipe#transform` (the comment at page.js lines 107-110). -/
inductive PageletsField where
  | defaultObj : PageletsField
  | arr : List PageletFactory → PageletsField

/-- Exceptions the embedded code can raise. -/
inductive JsError where
  /-- `this.pagelets.map is not a function` (page.js line 103 on the
  default `{}`). -/
  | typeError : JsError
  /-- An exception thrown by a `pagelet.authorize` call, propagating out
  of the `async.filter` iteration. -/
  | authThrown : JsError
deriving DecidableEq, Repr

/-- Per-request state of a `Page` instance (constructor, page.js
lines 9-23, plus the EventEmitter listener list from the prototype
chain). -/
structure PageState where
  /-- `this.connections`: active real-time connections, key to handle. -/
  connections : List (Nat × Nat)
  /-- `this.conditional`: pagelets that are conditional. -/
  conditional : List Pagelet
  /-- `this.enabled`: enabled pagelets. -/
  enabled : List Pagelet
  /-- `this.disabled`: disabled pagelets. -/
  disabled : List Pagelet
  /-- Listeners attached to the instance via its EventEmitter prototype. -/
  listeners : List Nat

/-- The freshly constructed state (page.js lines 9-23). -/
def emptyState : PageState :=
  { connections := [], conditional := [], enabled := [], disabled := [],
    listeners := [] }

/-- The value a JavaScript function call produces for its caller. -/
inductive RetVal where
  /-- `return this` — the receiver itself. -/
  | self : RetVal
  /-- Falling off the end of the function body. -/
  | undef : RetVal
deriving DecidableEq, Repr

/-- `jsTruthy i` is JavaScript `!!i` for an integer: `false` iff `i = 0`. -/
def jsTruthy (i : Int) : Bool :=
  decide (i ≠ 0)

/-- `Array.prototype.indexOf` with `===` (object identity, i.e. `uid`)
comparison: first index of `p` in `l`, `-1` when absent. -/
def jsIndexOf (l : List Pagelet) (p : Pagelet) : Int :=
  match l.findIdx? (fun q => q.uid == p.uid) with
  | some i => (i : Int)
  | none => -1

/-- One run of the `rejection` iterator body (page.js lines 111-117) on a
single pagelet: `.error` when `pagelet.authorize` throws, otherwise the
value of the first call on the single-shot `done` continuation.  For an
asynchronous check the first call is the unconditional `done(true)` on
line 117, so the check's eventual result is discarded. -/
def rejection (req : Option Req) (p : Pagelet) : Except JsError Bool :=
  match p.authorize with
  | AuthCheck.noCheck => Except.ok true
  | AuthCheck.resolves _ => Except.ok true
  | AuthCheck.throwsErr => Except.error JsError.authThrown

/-- Whether the `rejection` iterator accepts the pagelet into `allowed`. -/
def rejectionPass (req : Option Req) (p : Pagelet) : Bool :=
  match rejection req p with
  | Except.ok b => b
  | Except.error _ => false

/-- What `discover` produces when it completes without throwing. -/
structure DiscoverOut where
  /-- The page state after the `acceptance` continuation ran. -/
  state : PageState
  /-- Instrumentation: the `pagelet.authorize(req, done)` invocations made
  by the `rejection` iterator, as (pagelet uid, request argument) pairs in
  iteration order. -/
  authCalls : List (Nat × Option Req)

/-- `Page.prototype.discover` (page.js lines 99-124).

`this.pagelets.map(allocate)` throws a `TypeError` on the prototype
default `{}`.  Otherwise `async.filter` runs the `rejection` iterator over
the allocated pagelets; if any `authorize` throws, the exception
propagates and the `acceptance` continuation never runs, leaving
`enabled`/`disabled` untouched.  Otherwise `acceptance(allowed)` assigns
`page.enabled = allowed` and
`page.disabled = pagelets.filter(p => !!allowed.indexOf(p))`
(page.js lines 118-123). -/
def discover (req : Option Req) (pl : PageletsField) (s : PageState) :
    Except JsError DiscoverOut :=
  match pl with
  | PageletsField.defaultObj => Except.error JsError.typeError
  | PageletsField.arr fs =>
    let pagelets := fs.map PageletFactory.alloc
    if pagelets.any (fun p => p.authorize.isFunction &&
        !(rejection req p).isOk) then
      Except.error JsError.authThrown
    else
      let allowed := pagelets.filter (rejectionPass req)
      Except.ok
        { state := { s with
            enabled := allowed,
            disabled := pagelets.filter fun p => jsTruthy (jsIndexOf allowed p) },
          authCalls := (pagelets.filter fun p => p.authorize.isFunction).map
            fun p => (p.uid, req) }

/-- The reset phase of `configure` (page.js lines 136-149), before
`discover` is invoked:

* `for key in this.connections: delete this.connections[key]` — empties
  `connections`;
* `for key in this.enabled: delete this.enabled[key]` — empties `enabled`;
* `for key in this.disabled: delete this.enabled[key]` (line 145) —
  deletes `disabled`'s keys from the already-emptied `enabled`, a no-op;
  `disabled` itself is left as-is;
* `this.conditional.length = 0` — empties `conditional`;
* `this.removeAllListeners()` — strips every listener. -/
def configureReset (s : PageState) : PageState :=
  { s with
    connections := [],
    enabled := [],
    conditional := [],
    listeners := [] }

/-- What `configure` produces when it returns without throwing. -/
structure ConfigureOut where
  /-- The page state when `configure` returns. -/
  state : PageState
  /-- Instrumentation: the `authorize` invocations of the inner
  `discover` call. -/
  authCalls : List (Nat × Option Req)
  /-- The value `configure` returns: `return this` (page.js line 153). -/
  ret : RetVal

/-- `Page.prototype.configure` (page.js lines 133-154): the reset phase,
then `this.discover()` — invoked with NO argument (line 151), so the
inner `discover` sees `req` as `undefined` regardless of the `req`
passed to `configure` — then `return this`. -/
def configure (req : Option Req) (res : Nat) (pl : PageletsField)
    (s : PageState) : Except JsError ConfigureOut :=
  match discover none pl (configureReset s) with
  | Except.error e => Except.error e
  | Except.ok out =>
      Except.ok { state := out.state, authCalls := out.authCalls,
                  ret := RetVal.self }

-- Concrete pagelets used by the counterexample/witness theorems.

/-- A pagelet with no `authorize` property. -/
def pNoAuth : Pagelet := { uid := 1, authorize := AuthCheck.noCheck }

/-- A second pagelet with no `authorize` property. -/
def pNoAuth2 : Pagelet := { uid := 2, authorize := AuthCheck.noCheck }

/-- A pagelet whose asynchronous check resolves to `false` for every
request. -/
def pDenied : Pagelet :=
  { uid := 7, authorize := AuthCheck.resolves (fun _ => false) }

/-- A pagelet whose `authorize` throws. -/
def pThrowing : Pagelet := { uid := 9, authorize := AuthCheck.throwsErr }

/-- A pagelet whose asynchronous check resolves to `true` for every
request. -/
def pGranted : Pagelet :=
  { uid := 4, authorize := AuthCheck.resolves (fun _ => true) }

/-- The uid-level partition produced by a `discover` result. -/
def partitionUids (r : Except JsError DiscoverOut) :
    Except JsError (List Nat × List Nat) :=
  r.map fun out =>
    (out.state.enabled.map Pagelet.uid, out.state.disabled.map Pagelet.uid)

-- Helper lemmas (not tied to any single claim).

/-- `discover` never touches `connections`, `conditional` or `listeners`:
the `acceptance` continuation only assigns `enabled` and `disabled`. -/
theorem discover_frame (req : Option Req) (pl : PageletsField)
    (s : PageState) (out : DiscoverOut)
    (hok : discover req pl s = Except.ok out) :
    out.state.connections = s.connections ∧
    out.state.conditional = s.conditional ∧
    out.state.listeners = s.listeners := by
  cases pl with
  | defaultObj => exact absurd hok (by simp [discover])
  | arr fs =>
    simp only [discover] at hok
    split at hok
    · exact absurd hok (by simp)
    · cases hok
      exact ⟨rfl, rfl, rfl⟩

/-- C1: the claim fails on the code.  The pagelet `pDenied`, whose
authorization check resolves to `false` on every request, is nonetheless
placed in `enabledPagelets` (and `disabledPagelets` stays empty): the
unconditional `done(true)` on page.js line 117 decides the filter before
the asynchronous check can, so the partition ignores the check's value. -/
theorem c1_denied_pagelet_lands_in_enabled :
    partitionUids (discover (some 0) (PageletsField.arr [⟨pDenied⟩]) emptyState)
      = Except.ok ([7], []) := rfl

/-- C2: the claim fails on the code.  With two pagelets (uids 1 and 2),
neither having an authorize check, `enabled` receives both while
`disabled` receives pagelet 2 as well — `disabled` is computed as
`pagelets.filter(p => !!allowed.indexOf(p))` (page.js lines 120-122),
which keeps every pagelet except the one at index 0 of `allowed`, so the
two sets overlap on pagelet 2 instead of partitioning. -/
theorem c2_partition_overlaps :
    partitionUids
      (discover (some 0) (PageletsField.arr [⟨pNoAuth⟩, ⟨pNoAuth2⟩]) emptyState)
      = Except.ok ([1, 2], [2]) := rfl

/-- A page state populated by a previous request, used to exercise the
reset phase. -/
def preResetState : PageState :=
  { connections := [(3, 30)], conditional := [pNoAuth], enabled := [pNoAuth],
    disabled := [pDenied], listeners := [5] }

/-- C3: the claim fails on the code.  After the reset phase of
`configure`, `connections`, `enabled`, `conditional` and the listener
list are empty, but `disabled` still holds the previous request's
pagelet (uid 7): the loop over `this.disabled` deletes keys from
`this.enabled` instead of `this.disabled` (page.js line 145). -/
theorem c3_reset_leaves_disabled_populated :
    (configureReset preResetState).connections = [] ∧
    (configureReset preResetState).enabled = [] ∧
    (configureReset preResetState).conditional = [] ∧
    (configureReset preResetState).listeners = [] ∧
    (configureReset preResetState).disabled.map Pagelet.uid = [7] :=
  ⟨rfl, rfl, rfl, rfl, rfl⟩

/-- C4: the claim fails on the code.  With pagelets
`[pNoAuth (uid 1, no check), pThrowing (uid 9, check throws)]`, the
exception from `pagelet.authorize` propagates out of the `async.filter`
iteration, the `acceptance` continuation never runs, and `discover`
raises: the throwing pagelet is not placed in `disabled`, and even the
unaffected pagelet 1 is never partitioned. -/
theorem c4_throwing_check_aborts_discovery :
    discover (some 0) (PageletsField.arr [⟨pNoAuth⟩, ⟨pThrowing⟩]) emptyState
      = Except.error JsError.authThrown := rfl

/-- C5: the claim fails on the code.  `configure(some 9, ...)` invokes
`this.discover()` with no argument (page.js line 151), so the authorize
check of pagelet 4 observes `none` (JavaScript `undefined`) instead of
the request `some 9` passed to `configure`. -/
theorem c5_discover_called_without_request :
    (configure (some 9) 0 (PageletsField.arr [⟨pGranted⟩]) emptyState).map
      ConfigureOut.authCalls = Except.ok [(4, none)] := rfl

/-- C6: confirmed.  Whenever `discover` completes, every pagelet that
does not expose an authorize function is placed in `enabledPagelets`:
its only `done` call is the unconditional `done(true)`, so it passes the
filter. -/
theorem c6_no_check_always_enabled (req : Option Req)
    (fs : List PageletFactory) (s : PageState) (out : DiscoverOut)
    (p : Pagelet)
    (hok : discover req (PageletsField.arr fs) s = Except.ok out)
    (hp : p ∈ fs.map PageletFactory.alloc)
    (hauth : p.authorize = AuthCheck.noCheck) :
    p ∈ out.state.enabled := by
  simp only [discover] at hok
  split at hok
  · exact absurd hok (by simp)
  · cases hok
    exact List.mem_filter.mpr ⟨hp, by simp [rejectionPass, rejection, hauth]⟩

/-- Witness for C6 at a concrete input: a single pagelet without an
authorize check ends up in `enabled`. -/
theorem c6_no_check_always_enabled_witness :
    pNoAuth ∈
      (⟨⟨[], [], [pNoAuth], [], []⟩, []⟩ : DiscoverOut).state.enabled :=
  c6_no_check_always_enabled none [⟨pNoAuth⟩] emptyState
    ⟨⟨[], [], [pNoAuth], [], []⟩, []⟩ pNoAuth rfl (by simp) rfl

/-- C7: confirmed.  Whenever `configure` returns, `connections` is empty
and no listener registered before the call remains attached: the reset
phase empties both (page.js lines 136-138 and 149) and `discover` never
writes them. -/
theorem c7_configure_clears_connections_and_listeners (req : Option Req)
    (res : Nat) (pl : PageletsField) (s : PageState) (o : ConfigureOut)
    (hok : configure req res pl s = Except.ok o) :
    o.state.connections = [] ∧ o.state.listeners = [] := by
  simp only [configure] at hok
  split at hok
  · exact absurd hok (by simp)
  · rename_i out hout
    cases hok
    obtain ⟨hc, _, hl⟩ := discover_frame none pl (configureReset s) out hout
    exact ⟨hc, hl⟩

/-- Witness for C7 at a concrete input: configuring a page that holds a
connection and a listener leaves both collections empty. -/
theorem c7_configure_clears_witness :
    (⟨⟨[], [], [], [], []⟩, [], RetVal.self⟩ : ConfigureOut).state.connections
        = [] ∧
    (⟨⟨[], [], [], [], []⟩, [], RetVal.self⟩ : ConfigureOut).state.listeners
        = [] :=
  c7_configure_clears_connections_and_listeners none 0 (PageletsField.arr [])
    ⟨[(1, 10)], [], [], [], [3]⟩ ⟨⟨[], [], [], [], []⟩, [], RetVal.self⟩ rfl

/-- C8: confirmed.  The enabled/disabled partition produced by
`configure` depends only on the registered pagelet factories: two calls
in succession (indeed from any two states, with any two requests and
responses) produce the same partition, or fail with the same exception.
Determinism of the checks is built into the model (each check is a
function of the request). -/
theorem c8_configure_partition_deterministic (r₁ r₂ : Option Req)
    (a₁ a₂ : Nat) (s₁ s₂ : PageState) (pl : PageletsField) :
    (configure r₁ a₁ pl s₁).map (fun o => (o.state.enabled, o.state.disabled))
      = (configure r₂ a₂ pl s₂).map
          (fun o => (o.state.enabled, o.state.disabled)) := by
  cases pl with
  | defaultObj => rfl
  | arr fs =>
    by_cases h : (fs.map PageletFactory.alloc).any
        (fun p => p.authorize.isFunction && !(rejection none p).isOk)
    · simp [configure, discover, h]
    · simp [configure, discover, h, Except.map]

/-- C9: confirmed.  Whenever `configure` returns, it returns the Page
instance itself (`return this`, page.js line 153). -/
theorem c9_configure_returns_self (req : Option Req) (res : Nat)
    (pl : PageletsField) (s : PageState) (o : ConfigureOut)
    (hok : configure req res pl s = Except.ok o) :
    o.ret = RetVal.self := by
  simp only [configure] at hok
  split at hok
  · exact absurd hok (by simp)
  · cases hok
    rfl

/-- Witness for C9 at a concrete input. -/
theorem c9_configure_returns_self_witness :
    (⟨⟨[], [], [], [], []⟩, [], RetVal.self⟩ : ConfigureOut).ret
      = RetVal.self :=
  c9_configure_returns_self none 0 (PageletsField.arr []) ⟨[], [], [], [], []⟩
    ⟨⟨[], [], [], [], []⟩, [], RetVal.self⟩ rfl

/-- C10: confirmed.  On a Page whose `pagelets` is still the prototype
default plain object `{}`, `discover` throws a `TypeError`
(`this.pagelets.map` is not a function) instead of producing an empty
partition, and `configure` — which calls `discover` — propagates the same
`TypeError`. -/
theorem c10_default_pagelets_typeerror (req : Option Req) (res : Nat)
    (s : PageState) :
    discover req PageletsField.defaultObj s = Except.error JsError.typeError ∧
    configure req res PageletsField.defaultObj s
      = Except.error JsError.typeError :=
  ⟨rfl, rfl⟩
